import Mathlib

/-!
The Level Zero terminal monitor ze-smi (`src/main.cpp`).

A shallow embedding of `LevelZeroMonitor` and proofs about its power sampling
(`getPowerStats`), its frame repaint loop (`run`), the per-device report
(`printDeviceInfo`, `getSysmanDeviceHandleFromCoreDeviceHandle`) and the process
list (`getProcessInfo`).

Conventions of the embedding:

* `uint64_t` values are natural numbers below `2 ^ 64`; subtraction on them is
  `subU64`, the difference modulo `2 ^ 64`.
* Handles are natural numbers; a nullable handle is an `Option`.
* Every call into the Level Zero library is an input: the answers the library
  gives during one tick are collected in the `...Responses` records.
* `double` arithmetic is a parameter (`DoubleOps`): the theorems hold for every
  interpretation of conversion, addition, division and formatting, in particular
  for IEEE binary64. `idealDouble` is the interpretation without rounding, used to
  evaluate examples.
* A `std::ostream` is its text together with the sticky formatting flags the
  program touches (`std::hex`/`std::dec`, `std::fixed`, `std::setprecision`).
* The line counters of `run` (`long`, and the `int` padding index) are natural
  numbers: a frame has far fewer than `2 ^ 31` lines.
-/

namespace ZeSmi

/-! ## Machine integers and library constants -/

/-- Subtraction of two `uint64_t` values: the difference modulo `2 ^ 64`. -/
def subU64 (a b : Nat) : Nat := (a + (2 ^ 64 - b % 2 ^ 64)) % 2 ^ 64

/-- The success code of `ze_result_t` (value from the Level Zero headers). -/
def ZE_RESULT_SUCCESS : Nat := 0

/-- The "size argument invalid" code of `ze_result_t` (value from the Level Zero headers). -/
def ZE_RESULT_ERROR_INVALID_SIZE : Nat := 0x78000008

/-- Size of the process buffer in `getProcessInfo`. -/
def MAX_PROCESS : Nat := 2048

/-- A power-domain handle. -/
abbrev zes_pwr_handle_t := Nat

/-- A Sysman device handle; `none` is `nullptr`. -/
abbrev zes_device_handle_t := Option Nat

/-! ## Doubles -/

/-- The operations on `double` that the monitor uses. -/
structure DoubleOps (F : Type) where
  /-- The double `0.0` (the literal `0.0`, and the `int` literal `0` converted). -/
  zero : F
  /-- Conversion of an unsigned integer value to `double`. -/
  ofNat : Nat → F
  /-- Addition of doubles. -/
  add : F → F → F
  /-- Multiplication of doubles. -/
  mul : F → F → F
  /-- Division of doubles. -/
  div : F → F → F
  /-- Text of a double under `operator<<`, given whether `std::fixed` is set and the precision. -/
  format : Bool → Nat → F → String

/-- A fraction `num / den` of integers: the value of a double when no operation rounds.
`den = 0` stands for a non-finite result (a division by zero), written `inf`, `-inf` or
`nan`. -/
structure Fraction where
  /-- Numerator. -/
  num : Int
  /-- Denominator. -/
  den : Nat
  deriving DecidableEq

/-- The rational number a fraction denotes. -/
def Fraction.toRat (x : Fraction) : ℚ := (x.num : ℚ) / (x.den : ℚ)

/-- Exact sum of two fractions. -/
def Fraction.add (a b : Fraction) : Fraction :=
  ⟨a.num * b.den + b.num * a.den, a.den * b.den⟩

/-- Exact product of two fractions. -/
def Fraction.mul (a b : Fraction) : Fraction :=
  ⟨a.num * b.num, a.den * b.den⟩

/-- Exact quotient of two fractions; a division by zero gives a non-finite result. -/
def Fraction.div (a b : Fraction) : Fraction :=
  if b.num = 0 then ⟨a.num, 0⟩
  else ⟨a.num * b.den * b.num.sign, a.den * b.num.natAbs⟩

/-- Round the non-negative quotient `n / d` to the nearest integer, ties to even. -/
def roundHalfEven (n d : Nat) : Nat :=
  let q := n / d
  let r := n % d
  if 2 * r < d then q
  else if d < 2 * r then q + 1
  else if q % 2 = 0 then q else q + 1

/-- The decimal digits of `n`, padded with leading zeros to at least `width` digits. -/
def zeroPad (width n : Nat) : String :=
  let s := toString n
  String.mk (List.replicate (width - s.length) '0') ++ s

/-- Text of `|x|` in fixed notation with `p` decimals (the `%.pf` conversion). -/
def fixedDigits (p : Nat) (x : Fraction) : String :=
  let n := roundHalfEven (x.num.natAbs * 10 ^ p) x.den
  let whole := toString (n / 10 ^ p)
  if p = 0 then whole else whole ++ "." ++ zeroPad p (n % 10 ^ p)

/-- Remove the trailing zeros of a fractional part, and the decimal point when nothing is left. -/
def stripZeros (s : String) : String :=
  if s.data.contains '.' then
    let kept := (s.data.reverse.dropWhile (fun c => c == '0')).reverse
    String.mk (if kept.getLast? = some '.' then kept.dropLast else kept)
  else s

/-- The decimal exponent of a positive `n / d`: the largest `e` with `10 ^ e ≤ n / d`. -/
def decimalExponent (n d : Nat) : Int :=
  if d ≤ n then ((toString (n / d)).length : Int) - 1
  else
    match (List.range ((toString d).length + 1)).find? (fun k => decide (d ≤ n * 10 ^ k)) with
    | some k => - (k : Int)
    | none => 0

/-- Scale `n / d` by `10 ^ e` for an integer `e` and round to an integer, ties to even. -/
def scaledRound (n d : Nat) (e : Int) : Nat :=
  match e with
  | Int.ofNat k => roundHalfEven (n * 10 ^ k) d
  | Int.negSucc k => roundHalfEven n (d * 10 ^ (k + 1))

/-- Text of `|x|` in general notation with `p` significant digits (the `%.pg` conversion). -/
def generalDigits (p : Nat) (x : Fraction) : String :=
  let p := if p = 0 then 1 else p
  let n := x.num.natAbs
  if n = 0 then "0" else
  let e0 := decimalExponent n x.den
  let m0 := scaledRound n x.den ((p : Int) - 1 - e0)
  let e := if m0 = 10 ^ p then e0 + 1 else e0
  if -4 ≤ e ∧ e < (p : Int) then
    stripZeros (fixedDigits ((p : Int) - 1 - e).toNat x)
  else
    let m := scaledRound n x.den ((p : Int) - 1 - e)
    let digits := toString m
    let mantissa := stripZeros (String.mk (digits.data.take 1) ++ "." ++ String.mk (digits.data.drop 1))
    mantissa ++ "e" ++ (if e < 0 then "-" else "+") ++ zeroPad 2 e.natAbs

/-- Text of a fraction under `operator<<`. -/
def Fraction.format (fixed : Bool) (precision : Nat) (x : Fraction) : String :=
  if x.den = 0 then (if x.num = 0 then "nan" else if x.num < 0 then "-inf" else "inf")
  else
    (if x.num < 0 then "-" else "") ++
      (if fixed then fixedDigits precision x else generalDigits precision x)

/-- Doubles without rounding: every conversion and operation is exact. -/
def idealDouble : DoubleOps Fraction where
  zero := ⟨0, 1⟩
  ofNat n := ⟨(n : Int), 1⟩
  add := Fraction.add
  mul := Fraction.mul
  div := Fraction.div
  format := Fraction.format

/-! ## Output streams -/

/-- A `std::ostream`: the text written so far and the formatting flags. -/
structure OStream where
  /-- Text written so far. -/
  text : String
  /-- Whether integers are written in base 16 (`std::hex`) instead of base 10. -/
  hex : Bool
  /-- Whether `std::fixed` is set. -/
  fixed : Bool
  /-- The precision for doubles. -/
  precision : Nat

/-- A freshly constructed stream (`std::stringstream buffer;`). -/
def OStream.fresh : OStream := ⟨"", false, false, 6⟩

/-- Write a string: `out << s`. -/
def OStream.str (o : OStream) (s : String) : OStream :=
  { o with text := o.text ++ s }

/-- Write an unsigned integer: `out << n`. -/
def OStream.int (o : OStream) (n : Nat) : OStream :=
  o.str (if o.hex then String.mk (Nat.toDigits 16 n) else toString n)

/-- Write a double: `out << x`. -/
def OStream.dbl {F : Type} (ops : DoubleOps F) (o : OStream) (x : F) : OStream :=
  o.str (ops.format o.fixed o.precision x)

/-- Write a line break: `out << std::endl`. -/
def OStream.endl (o : OStream) : OStream := o.str "\n"

/-! ## Answers of the Level Zero library during one tick -/

/-- An energy counter sample as read by `zesPowerGetEnergyCounter`. -/
structure zes_power_energy_counter_t where
  /-- Energy counter (`uint64_t`). -/
  energy : Nat
  /-- Timestamp (`uint64_t`). -/
  timestamp : Nat
  deriving DecidableEq

/-- Answers to the power calls for one device. -/
structure PowerResponses where
  /-- Result of the counting call `zesDeviceEnumPowerDomains(dev, &powerCount, nullptr)`. -/
  enumResult : Nat
  /-- The vector `powerHandles` after the second enumeration call (its length is `powerCount`),
  each handle with the answer of `zesPowerGetEnergyCounter`: `none` when that call fails. -/
  powerHandles : List (zes_pwr_handle_t × Option zes_power_energy_counter_t)

/-- A memory module state as read by `zesMemoryGetState`. -/
structure zes_mem_state_t where
  /-- Health code. -/
  health : Nat
  /-- Free bytes (`uint64_t`). -/
  free : Nat
  /-- Total bytes (`uint64_t`). -/
  size : Nat

/-- Answers to the memory calls for one device. -/
structure MemoryResponses where
  /-- Result of the counting call `zesDeviceEnumMemoryModules(dev, &memCount, nullptr)`. -/
  enumResult : Nat
  /-- One entry per module (the length is `memCount`): the state, `none` when
  `zesMemoryGetState` fails. -/
  modules : List (Option zes_mem_state_t)

/-- One entry of the process buffer. -/
structure zes_process_state_t where
  /-- Process id (`uint32_t`). -/
  processId : Nat
  /-- Device memory in use, bytes (`uint64_t`). -/
  memSize : Nat
  /-- Shared memory in use, bytes (`uint64_t`). -/
  sharedSize : Nat

/-- The effect of one `zesDeviceProcessesGetState(dev, &count, processes)` call. -/
structure ProcessCall where
  /-- The returned result code. -/
  ret : Nat
  /-- The value of `count` after the call. -/
  count : Nat
  /-- The content of the buffer `processes` after the call, by index. -/
  processes : Nat → zes_process_state_t

/-- Answers to the process calls for one device. -/
structure ProcessResponses where
  /-- The first call, as a function of the count it is given. -/
  first : Nat → ProcessCall
  /-- The second call, as a function of the count it is given. -/
  retry : Nat → ProcessCall
  /-- Content of `/proc/<pid>/cmdline`; `none` when the file cannot be opened. -/
  cmdline : Nat → Option String

/-- Answers to the calls made by `getSysmanDeviceHandleFromCoreDeviceHandle` for one device. -/
structure SysmanResponses where
  /-- Result of `zeDeviceGetProperties`. -/
  propertiesResult : Nat
  /-- Result of the counting call `zesDriverGet(&driverCount, nullptr)`. -/
  driverCountResult : Nat
  /-- The value of `driverCount` after the counting call. -/
  driverCount : Nat
  /-- Result of the second call `zesDriverGet(&driverCount, allDrivers)`. -/
  driverGetResult : Nat
  /-- One entry per driver visited by the lookup loop (as many as `driverCount` after the
  second call): the result of `zesDriverGetDeviceByUuidExp` and what it stored in
  `phSysmanDevice` (`none` when it left the variable untouched). -/
  lookups : List (Nat × Option zes_device_handle_t)

/-- Everything the library answers about one device during one tick. -/
structure DeviceResponses (F : Type) where
  /-- The field `deviceProperties.name` after the call in `printDeviceInfo`. -/
  name : String
  /-- Answers for the Sysman handle resolution. -/
  sysman : SysmanResponses
  /-- Answers for the power section. -/
  power : PowerResponses
  /-- Answers for the memory section. -/
  memory : MemoryResponses
  /-- The temperature sensors (as many as `tempSensorCount` after the enumeration call):
  the reading, `none` when `zesTemperatureGetState` fails. -/
  temperature : List (Option F)
  /-- Answers for the process section. -/
  processes : ProcessResponses

/-! ## The power section: `getPowerStats` -/

/-- The member `powerData`: the last sample `(energy, timestamp)` stored for a handle. -/
abbrev PowerData := zes_pwr_handle_t → Option (Nat × Nat)

/-- The assignment `powerData[handle] = sample`. -/
def PowerData.set (powerData : PowerData) (handle : zes_pwr_handle_t) (sample : Nat × Nat) :
    PowerData :=
  fun k => if k = handle then some sample else powerData k

/-- The locals of `getPowerStats` that the loop updates, with the member `powerData`. -/
structure PowerAcc (F : Type) where
  /-- The member `powerData`. -/
  powerData : PowerData
  /-- The local `totalPowerUsage`. -/
  totalPowerUsage : F
  /-- The local `validSamples`. -/
  validSamples : Nat

/-- The value `powerUsage` computed for a domain from its stored sample and the new one. -/
def powerUsage {F : Type} (ops : DoubleOps F) (prev : Nat × Nat)
    (counter : zes_power_energy_counter_t) : F :=
  let prevEnergy := prev.1
  let prevTimestamp := prev.2
  let energyDelta := subU64 counter.energy prevEnergy
  let timeDelta := subU64 counter.timestamp prevTimestamp
  if timeDelta > 0 then ops.div (ops.ofNat energyDelta) (ops.ofNat timeDelta) else ops.zero

/-- The body of the loop over `powerHandles` in `getPowerStats`. -/
def powerStep {F : Type} (ops : DoubleOps F) (acc : PowerAcc F)
    (entry : zes_pwr_handle_t × Option zes_power_energy_counter_t) : PowerAcc F :=
  match entry.2 with
  | none => acc
  | some counter =>
    let acc1 : PowerAcc F :=
      match acc.powerData entry.1 with
      | some prev =>
        { acc with
          totalPowerUsage := ops.add acc.totalPowerUsage (powerUsage ops prev counter)
          validSamples := acc.validSamples + 1 }
      | none => acc
    { acc1 with powerData := acc1.powerData.set entry.1 (counter.energy, counter.timestamp) }

/-- The loop over `powerHandles` in `getPowerStats`. -/
def powerLoop {F : Type} (ops : DoubleOps F) (acc : PowerAcc F)
    (powerHandles : List (zes_pwr_handle_t × Option zes_power_energy_counter_t)) : PowerAcc F :=
  powerHandles.foldl (powerStep ops) acc

/-- The method `getPowerStats`: the new `powerData` and the stream after the power line. -/
def getPowerStats {F : Type} (ops : DoubleOps F) (r : PowerResponses)
    (powerData : PowerData) (out : OStream) : PowerData × OStream :=
  if r.enumResult ≠ ZE_RESULT_SUCCESS then (powerData, out)
  else
    let acc0 : PowerAcc F := ⟨powerData, ops.zero, 0⟩
    let acc := if r.powerHandles.length > 0 then powerLoop ops acc0 r.powerHandles else acc0
    if acc.validSamples > 0 then
      let averagePowerUsage := ops.div acc.totalPowerUsage (ops.ofNat acc.validSamples)
      let o : OStream := { out with fixed := true, precision := 2 }
      (acc.powerData, ((o.str "Power: ").dbl ops averagePowerUsage).str " W\n")
    else
      (acc.powerData, out.str "Power: n/a\n")

/-- The power values that the specification averages in a tick: one value for each domain
whose read succeeded and that had a sample stored in `powerData` when the tick began, in
enumeration order. Domains on their first sample and domains whose read failed have none. -/
def validValues {F : Type} (ops : DoubleOps F) (powerData : PowerData)
    (powerHandles : List (zes_pwr_handle_t × Option zes_power_energy_counter_t)) : List F :=
  powerHandles.filterMap fun entry =>
    match entry.2, powerData entry.1 with
    | some counter, some prev => some (powerUsage ops prev counter)
    | _, _ => none

/-- No handle is read successfully twice in one tick: the domains that answer are pairwise
distinct. -/
abbrev DistinctReads
    (powerHandles : List (zes_pwr_handle_t × Option zes_power_energy_counter_t)) : Prop :=
  powerHandles.Pairwise fun a b => a.2.isSome = true → b.2.isSome = true → a.1 ≠ b.1

/-- The power line the specification asks for, given the values to average: their mean
(the sum divided by the count) with two decimals, or "n/a" when there is no value. -/
def powerLine {F : Type} (ops : DoubleOps F) (values : List F) (out : OStream) : OStream :=
  if values.length = 0 then out.str "Power: n/a\n"
  else
    let mean := ops.div (values.foldl ops.add ops.zero) (ops.ofNat values.length)
    ((({ out with fixed := true, precision := 2 }).str "Power: ").dbl ops mean).str " W\n"

/-! ## The memory, temperature and process sections -/

/-- The loop body of `getMemoryInfo` for module `i`. -/
def memoryStep {F : Type} (ops : DoubleOps F) (out : OStream)
    (entry : Nat × Option zes_mem_state_t) : OStream :=
  match entry.2 with
  | none => out
  | some memState =>
    let o := ((out.str "Memory Module ").int entry.1).endl
    let o := (({ (o.str "    Health: ") with hex := true }).int memState.health)
    let o := ({ o with hex := false }).str "\n"
    let o := ((o.str "    Total Memory: ").int (memState.size / (1024 * 1024))).str " MiB\n"
    let o := ((o.str "    Free Memory: ").int (memState.free / (1024 * 1024))).str " MiB\n"
    let usage := ops.mul
      (ops.div (ops.ofNat (subU64 memState.size memState.free)) (ops.ofNat memState.size))
      (ops.ofNat 100)
    let o := ((o.str "    Used Memory: ").int (subU64 memState.size memState.free / (1024 * 1024))).str
      " MiB ("
    (({ o with fixed := true, precision := 2 }).dbl ops usage).str "%)\n"

/-- The function `getMemoryInfo`. -/
def getMemoryInfo {F : Type} (ops : DoubleOps F) (r : MemoryResponses) (out : OStream) :
    OStream :=
  if r.enumResult ≠ ZE_RESULT_SUCCESS ∨ r.modules.length = 0 then out
  else r.modules.enum.foldl (memoryStep ops) out

/-- The loop body of `getTemperatureInfo` for sensor `i`. -/
def temperatureStep {F : Type} (ops : DoubleOps F) (out : OStream)
    (entry : Nat × Option F) : OStream :=
  match entry.2 with
  | none => out
  | some temperature =>
    ((((out.str "    Temperature Sensor ").int entry.1).str ": ").dbl ops temperature).str "C\n"

/-- The function `getTemperatureInfo`. -/
def getTemperatureInfo {F : Type} (ops : DoubleOps F) (sensors : List (Option F))
    (out : OStream) : OStream :=
  let o := ((out.str "Temperature Sensors ").int sensors.length).str "\n"
  sensors.enum.foldl (temperatureStep ops) o

/-- The function `getProcessName`. -/
def getProcessName (cmdline : Nat → Option String) (pid : Nat) : String :=
  match cmdline pid with
  | none => ""
  | some content => String.mk (content.data.map fun c => if c = '\x00' then ' ' else c)

/-- The loop body of `getProcessInfo` for one buffer entry. -/
def processStep (cmdline : Nat → Option String) (out : OStream) (p : zes_process_state_t) :
    OStream :=
  let o := (out.str "PID: ").int p.processId
  let o := ((o.str " / Mem size: ").int (p.memSize / (1024 * 1024))).str " MiB / Shared mem: "
  let o := (o.int (p.sharedSize / (1024 * 1024))).str " MiB \n"
  ((o.str "    ").str (getProcessName cmdline p.processId)).endl

/-- The entries `processes[0 .. count-1]` written by `getProcessInfo`. -/
def processLines (cmdline : Nat → Option String) (processes : Nat → zes_process_state_t)
    (count : Nat) (out : OStream) : OStream :=
  (List.range count).foldl (fun o i => processStep cmdline o (processes i)) out

/-- The function `getProcessInfo`: the stream afterwards, and the counts passed to the
successive `zesDeviceProcessesGetState` calls. -/
def getProcessInfo (r : ProcessResponses) (out : OStream) : OStream × List Nat :=
  let call1 := r.first MAX_PROCESS
  if call1.ret ≠ ZE_RESULT_SUCCESS ∧ call1.ret ≠ ZE_RESULT_ERROR_INVALID_SIZE then
    (((({ (out.str "Unable to get process information (ret ") with hex := true }).int
      call1.ret).str ")").endl, [MAX_PROCESS])
  else if call1.ret = ZE_RESULT_ERROR_INVALID_SIZE then
    let count := min call1.count MAX_PROCESS
    let call2 := r.retry count
    if call2.ret ≠ ZE_RESULT_SUCCESS then
      (((({ (out.str "Retry failed to get process info (ret ") with hex := true }).int
        call2.ret).str ")").endl, [MAX_PROCESS, count])
    else
      (processLines r.cmdline call2.processes call2.count out.endl, [MAX_PROCESS, count])
  else
    (processLines r.cmdline call1.processes call1.count out.endl, [MAX_PROCESS])

/-! ## The device loop: `printDeviceInfo` -/

/-- The lookup loop of `getSysmanDeviceHandleFromCoreDeviceHandle` over the drivers. -/
def lookupLoop : List (Nat × Option zes_device_handle_t) → zes_device_handle_t →
    zes_device_handle_t
  | [], phSysmanDevice => phSysmanDevice
  | (result, stored) :: rest, phSysmanDevice =>
    let ph := stored.getD phSysmanDevice
    if result = ZE_RESULT_SUCCESS ∧ ph ≠ none then ph else lookupLoop rest ph

/-- How a call ends: it returns a value, or the process exits with a status. -/
inductive Completion (α : Type) where
  | returned : α → Completion α
  | exited : Int → Completion α
  deriving DecidableEq

/-- The function `getSysmanDeviceHandleFromCoreDeviceHandle`: the text it prints with
`printf`, and the handle it returns unless it calls `exit`. -/
def getSysmanDeviceHandleFromCoreDeviceHandle (r : SysmanResponses) :
    String × Completion zes_device_handle_t :=
  if r.propertiesResult ≠ ZE_RESULT_SUCCESS then
    ("Error: zeDeviceGetProperties failed, result = " ++ toString r.propertiesResult ++ "\n",
      .returned none)
  else if r.driverCount = 0 ∨ r.driverCountResult ≠ ZE_RESULT_SUCCESS then
    ("Error could not retrieve driver\n", .exited (-1))
  else if r.driverGetResult ≠ ZE_RESULT_SUCCESS then
    ("Error:  zesDriverGet failed, result = " ++ toString r.driverGetResult ++ "\n",
      .returned none)
  else
    ("", .returned (lookupLoop r.lookups none))

/-- The monitor while a frame is being built. -/
structure Monitor where
  /-- The member `powerData`. -/
  powerData : PowerData
  /-- The stream `out` that collects the frame text. -/
  out : OStream
  /-- Text written directly to the terminal (`printf`, `std::cout`). -/
  stdout : String
  /-- The exit status once `exit` has been called. -/
  exited : Option Int

/-- The body of the loop of `printDeviceInfo` for one device. -/
def deviceStep {F : Type} (ops : DoubleOps F) (m : Monitor) (device : DeviceResponses F) :
    Monitor :=
  if m.exited.isSome then m
  else
    let out := ((m.out.str "Device: ").str device.name).str "\n"
    match getSysmanDeviceHandleFromCoreDeviceHandle device.sysman with
    | (printed, .exited code) =>
      { m with out := out, stdout := m.stdout ++ printed, exited := some code }
    | (printed, .returned none) =>
      { m with out := out, stdout := m.stdout ++ printed }
    | (printed, .returned (some _)) =>
      let (powerData, out) := getPowerStats ops device.power m.powerData out
      let out := getMemoryInfo ops device.memory out
      let out := getTemperatureInfo ops device.temperature out
      let out := (getProcessInfo device.processes out).1
      { m with powerData := powerData, out := out, stdout := m.stdout ++ printed }

/-- The method `printDeviceInfo` over the devices in enumeration order. -/
def printDeviceInfo {F : Type} (ops : DoubleOps F) (devices : List (DeviceResponses F))
    (m : Monitor) : Monitor :=
  devices.foldl (deviceStep ops) m

/-! ## The repaint loop: `run` -/

/-- The number of line breaks in a frame: `std::count(output.begin(), output.end(), '\n')`. -/
def countLines (output : String) : Nat := output.data.count '\n'

/-- The cursor-up sequence written when `maxLinesUsed > 0`. -/
def cursorUp (maxLinesUsed : Nat) : String :=
  if maxLinesUsed > 0 then "\x1b[" ++ toString maxLinesUsed ++ "A" else ""

/-- The padding loop: `n` line breaks. -/
def padding (n : Nat) : String := String.mk (List.replicate n '\n')

/-- What one iteration of `run` writes once the frame text `output` is built. -/
structure Painted where
  /-- The cursor-up sequence (empty when none is written). -/
  up : String
  /-- The erase sequence. -/
  erase : String
  /-- The frame text. -/
  frame : String
  /-- The padding line breaks. -/
  pad : String
  /-- The value of `maxLinesUsed` at the end of the iteration. -/
  maxLinesUsed : Nat

/-- The repaint part of one iteration of `run`, from `currentLines` to the padding loop. -/
def paint (maxLinesUsed : Nat) (output : String) : Painted :=
  let currentLines := countLines output
  let up := cursorUp maxLinesUsed
  let maxLinesUsed1 := if currentLines > maxLinesUsed then currentLines else maxLinesUsed
  let pad := if currentLines < maxLinesUsed1 then padding (maxLinesUsed1 - currentLines) else ""
  ⟨up, "\x1b[J", output, pad, maxLinesUsed1⟩

/-- The text of one repaint, in the order it is written to `std::cout`. -/
def Painted.text (p : Painted) : String := p.up ++ p.erase ++ p.frame ++ p.pad

/-- The loop of `run` over successive frame texts: the repaints, and the final `maxLinesUsed`. -/
def paintLoop : Nat → List String → List Painted × Nat
  | maxLinesUsed, [] => ([], maxLinesUsed)
  | maxLinesUsed, output :: rest =>
    let p := paint maxLinesUsed output
    let r := paintLoop p.maxLinesUsed rest
    (p :: r.1, r.2)

/-- The high-water mark the specification asks for: the largest of the line counts seen so
far, zero before the first frame. -/
def highWater (counts : List Nat) : Nat := counts.foldl max 0

/-- The state of `run` between iterations. -/
structure RunState where
  /-- The member `powerData`. -/
  powerData : PowerData
  /-- The local `maxLinesUsed`. -/
  maxLinesUsed : Nat
  /-- Everything written to the terminal so far. -/
  stdout : String
  /-- The exit status once `exit` has been called. -/
  exited : Option Int

/-- One iteration of the loop of `run`, given the answers of the library for this tick. -/
def runStep {F : Type} (ops : DoubleOps F) (s : RunState) (tick : List (DeviceResponses F)) :
    RunState :=
  if s.exited.isSome then s
  else
    let m := printDeviceInfo ops tick ⟨s.powerData, OStream.fresh, s.stdout, none⟩
    match m.exited with
    | some code => { s with powerData := m.powerData, stdout := m.stdout, exited := some code }
    | none =>
      let p := paint s.maxLinesUsed m.out.text
      { s with powerData := m.powerData, maxLinesUsed := p.maxLinesUsed,
               stdout := m.stdout ++ p.text }

/-- The state in which `run` enters its loop: no stored sample, `maxLinesUsed = 0`. -/
def RunState.initial : RunState := ⟨fun _ => none, 0, "", none⟩

/-- The method `run` over the first ticks. -/
def run {F : Type} (ops : DoubleOps F) (ticks : List (List (DeviceResponses F))) : RunState :=
  ticks.foldl (runStep ops) RunState.initial

/-- The frame texts that the loop of `run` builds and paints over the given ticks, in
order, from the state `s` on (none once the process has exited). -/
def framesFrom {F : Type} (ops : DoubleOps F) :
    RunState → List (List (DeviceResponses F)) → List String
  | _, [] => []
  | s, tick :: rest =>
    if s.exited.isSome then []
    else
      let m := printDeviceInfo ops tick ⟨s.powerData, OStream.fresh, s.stdout, none⟩
      match m.exited with
      | some _ => []
      | none => m.out.text :: framesFrom ops (runStep ops s tick) rest


/-! ## Example inputs -/

/-- Example store: handle 7 holds the sample `(1000, 5000)`. -/
def storedOne : PowerData := PowerData.set (fun _ => none) 7 (1000, 5000)

/-- Example store: handles 1, 3 and 4 hold a sample, handle 2 does not. -/
def storedThree : PowerData :=
  ((PowerData.set (fun _ => none) 1 (1000, 5000)).set 3 (5, 5)).set 4 (200, 2000)

/-- Example tick of four domains: two with a stored sample and a successful read, one read
for the first time, one whose read fails. -/
def fourDomains : PowerResponses :=
  ⟨ZE_RESULT_SUCCESS,
    [(1, some ⟨1400, 6000⟩), (2, some ⟨7, 7⟩), (3, none), (4, some ⟨500, 3000⟩)]⟩

/-- Example tick of two domains: one read for the first time, one whose read fails. -/
def noValidDomain : PowerResponses :=
  ⟨ZE_RESULT_SUCCESS, [(2, some ⟨7, 7⟩), (3, none)]⟩

/-- Example process answers: no process, `/proc` unreadable. -/
def noProcesses : ProcessResponses :=
  ⟨fun _ => ⟨ZE_RESULT_SUCCESS, 0, fun _ => ⟨0, 0, 0⟩⟩,
    fun _ => ⟨ZE_RESULT_SUCCESS, 0, fun _ => ⟨0, 0, 0⟩⟩, fun _ => none⟩

/-- Example device whose Sysman handle is not found: the only driver does not know the
device. -/
def unresolvedDevice : DeviceResponses Fraction :=
  ⟨"GPU 0", ⟨ZE_RESULT_SUCCESS, ZE_RESULT_SUCCESS, 1, ZE_RESULT_SUCCESS, [(0x78000004, none)]⟩,
    ⟨ZE_RESULT_SUCCESS, []⟩, ⟨ZE_RESULT_SUCCESS, []⟩, [], noProcesses⟩

/-- Example device whose Sysman handle is found: one power domain, one memory module, one
temperature sensor, one process. -/
def resolvedDevice : DeviceResponses Fraction :=
  ⟨"GPU 1", ⟨ZE_RESULT_SUCCESS, ZE_RESULT_SUCCESS, 1, ZE_RESULT_SUCCESS, [(0, some (some 42))]⟩,
    ⟨ZE_RESULT_SUCCESS, [(7, some ⟨1400, 6000⟩)]⟩,
    ⟨ZE_RESULT_SUCCESS, [some ⟨0, 1073741824, 4294967296⟩]⟩,
    [some ⟨91, 2⟩],
    ⟨fun _ => ⟨ZE_RESULT_SUCCESS, 1, fun _ => ⟨4242, 2097152, 1048576⟩⟩,
      fun _ => ⟨ZE_RESULT_SUCCESS, 0, fun _ => ⟨0, 0, 0⟩⟩,
      fun pid => if pid = 4242 then some "clinfo\x00-l\x00" else none⟩⟩

/-- Example device for which the Sysman driver list cannot be retrieved: the counting call
reports zero drivers. -/
def driverlessDevice : DeviceResponses Fraction :=
  ⟨"GPU 2", ⟨ZE_RESULT_SUCCESS, ZE_RESULT_SUCCESS, 0, ZE_RESULT_SUCCESS, []⟩,
    ⟨ZE_RESULT_SUCCESS, []⟩, ⟨ZE_RESULT_SUCCESS, []⟩, [], noProcesses⟩

/-- Example device for which the second `zesDriverGet` call, the one that fetches the
drivers, fails with `ZE_RESULT_ERROR_DEVICE_LOST` (`0x70000001`). -/
def driverFetchFailure : DeviceResponses Fraction :=
  ⟨"GPU 3", ⟨ZE_RESULT_SUCCESS, ZE_RESULT_SUCCESS, 1, 0x70000001, []⟩,
    ⟨ZE_RESULT_SUCCESS, []⟩, ⟨ZE_RESULT_SUCCESS, []⟩, [], noProcesses⟩

/-- Example monitor at the start of a tick, with the store `storedOne`. -/
def tickStart : Monitor := ⟨storedOne, OStream.fresh, "", none⟩

/-- Example frame of 40 lines. -/
def frame40 : String := String.join (List.replicate 40 "line\n")

/-- Example frame of 25 lines. -/
def frame25 : String := String.join (List.replicate 25 "line\n")

/-! ## Lemmas on `uint64_t` subtraction -/

theorem subU64_of_le (a b : Nat) (h : b ≤ a) (ha : a < 2 ^ 64) : subU64 a b = a - b := by
  unfold subU64; omega

theorem subU64_of_lt (a b : Nat) (h : a < b) (hb : b < 2 ^ 64) :
    subU64 a b = 2 ^ 64 + a - b := by
  unfold subU64; omega

theorem subU64_self (a : Nat) : subU64 a a = 0 := by
  unfold subU64; omega

theorem subU64_emod (a b : Nat) : ((subU64 a b : Nat) : Int) = ((a : Int) - (b : Int)) % 2 ^ 64 := by
  unfold subU64; omega

/-! ## Lemmas on the power loop -/

theorem powerStep_none {F : Type} (ops : DoubleOps F) (acc : PowerAcc F) (h : zes_pwr_handle_t) :
    powerStep ops acc (h, none) = acc := rfl

theorem powerStep_cold {F : Type} (ops : DoubleOps F) (acc : PowerAcc F) (h : zes_pwr_handle_t)
    (counter : zes_power_energy_counter_t) (hcold : acc.powerData h = none) :
    powerStep ops acc (h, some counter) =
      ⟨acc.powerData.set h (counter.energy, counter.timestamp), acc.totalPowerUsage,
        acc.validSamples⟩ := by
  simp [powerStep, hcold]

theorem powerStep_warm {F : Type} (ops : DoubleOps F) (acc : PowerAcc F) (h : zes_pwr_handle_t)
    (counter : zes_power_energy_counter_t) (prev : Nat × Nat)
    (hprev : acc.powerData h = some prev) :
    powerStep ops acc (h, some counter) =
      ⟨acc.powerData.set h (counter.energy, counter.timestamp),
        ops.add acc.totalPowerUsage (powerUsage ops prev counter), acc.validSamples + 1⟩ := by
  simp [powerStep, hprev]

theorem getPowerStats_single {F : Type} (ops : DoubleOps F) (powerData : PowerData)
    (out : OStream) (entry : zes_pwr_handle_t × Option zes_power_energy_counter_t) :
    getPowerStats ops ⟨ZE_RESULT_SUCCESS, [entry]⟩ powerData out =
      let acc := powerStep ops ⟨powerData, ops.zero, 0⟩ entry
      if acc.validSamples > 0 then
        (acc.powerData, ((({ out with fixed := true, precision := 2 } : OStream).str "Power: ").dbl ops
          (ops.div acc.totalPowerUsage (ops.ofNat acc.validSamples))).str " W\n")
      else (acc.powerData, out.str "Power: n/a\n") := by
  simp [getPowerStats, powerLoop]

/-- Claim C1: for every power-domain handle `h` that has a stored sample `(e0, t0)`, a
successful read `(e1, t1)` with `e1 ≥ e0` and `t1 > t0` yields, for every interpretation of
double arithmetic, the power value `double(e1 - e0) / double(t1 - t0)`: the deltas are
converted first and divided as doubles, they are not divided as integers. The loop step
adds this value to `totalPowerUsage`, counts one valid sample and stores `(e1, t1)`; a
device whose only domain is `h` prints this value as its power line with two decimals.
Without rounding the value is the rational number `(e1 - e0) / (t1 - t0)`. -/
theorem power_from_two_samples {F : Type} (ops : DoubleOps F) (powerData : PowerData)
    (h : zes_pwr_handle_t) (e0 t0 e1 t1 : Nat) (out : OStream)
    (hstored : powerData h = some (e0, t0)) (he : e0 ≤ e1) (ht : t0 < t1)
    (he1 : e1 < 2 ^ 64) (ht1 : t1 < 2 ^ 64) :
    powerUsage ops (e0, t0) ⟨e1, t1⟩ = ops.div (ops.ofNat (e1 - e0)) (ops.ofNat (t1 - t0)) ∧
    (∀ total valid, powerStep ops ⟨powerData, total, valid⟩ (h, some ⟨e1, t1⟩) =
      ⟨powerData.set h (e1, t1),
        ops.add total (ops.div (ops.ofNat (e1 - e0)) (ops.ofNat (t1 - t0))), valid + 1⟩) ∧
    getPowerStats ops ⟨ZE_RESULT_SUCCESS, [(h, some ⟨e1, t1⟩)]⟩ powerData out =
      (powerData.set h (e1, t1),
        ((({ out with fixed := true, precision := 2 } : OStream).str "Power: ").dbl ops
          (ops.div (ops.add ops.zero (ops.div (ops.ofNat (e1 - e0)) (ops.ofNat (t1 - t0))))
            (ops.ofNat 1))).str " W\n") ∧
    (powerUsage idealDouble (e0, t0) ⟨e1, t1⟩).toRat = ((e1 : ℚ) - (e0 : ℚ)) / ((t1 : ℚ) - (t0 : ℚ)) := by
  have hu : ∀ {G : Type} (o : DoubleOps G),
      powerUsage o (e0, t0) ⟨e1, t1⟩ = o.div (o.ofNat (e1 - e0)) (o.ofNat (t1 - t0)) := by
    intro G o
    have h1 : subU64 e1 e0 = e1 - e0 := subU64_of_le e1 e0 he he1
    have h2 : subU64 t1 t0 = t1 - t0 := subU64_of_le t1 t0 (Nat.le_of_lt ht) ht1
    have h3 : 0 < t1 - t0 := Nat.sub_pos_of_lt ht
    simp [powerUsage, h1, h2, h3]
  have hs : ∀ total valid, powerStep ops ⟨powerData, total, valid⟩ (h, some ⟨e1, t1⟩) =
      ⟨powerData.set h (e1, t1),
        ops.add total (ops.div (ops.ofNat (e1 - e0)) (ops.ofNat (t1 - t0))), valid + 1⟩ := by
    intro total valid
    rw [powerStep_warm ops ⟨powerData, total, valid⟩ h ⟨e1, t1⟩ (e0, t0) hstored, hu ops]
  refine ⟨hu ops, hs, ?_, ?_⟩
  · rw [getPowerStats_single, hs]
    simp
  · rw [hu idealDouble]
    have h3 : (t1 - t0 : Nat) ≠ 0 := Nat.sub_ne_zero_of_lt ht
    have h4 : ((t1 - t0 : Nat) : Int) ≠ 0 := by exact_mod_cast h3
    have h5 : 0 < ((t1 - t0 : Nat) : Int) := by omega
    simp only [idealDouble, Fraction.div, Fraction.toRat, h4, if_false]
    rw [Int.sign_eq_one_of_pos h5]
    simp only [Int.natAbs_ofNat, Nat.cast_one, mul_one, one_mul]
    push_cast [Nat.cast_sub he, Nat.cast_sub (Nat.le_of_lt ht)]
    rfl

/-- Claim C2: for every power-domain handle `h` with no entry in `powerData`, the first
successful read `(e0, t0)` yields no power value: the loop step leaves `totalPowerUsage`
and `validSamples` as they are and only stores `(e0, t0)`, so a device whose only domain is
`h` prints "Power: n/a" on that tick. -/
theorem first_sample_gives_no_power {F : Type} (ops : DoubleOps F) (powerData : PowerData)
    (h : zes_pwr_handle_t) (e0 t0 : Nat) (out : OStream) (hcold : powerData h = none) :
    (∀ total valid, powerStep ops ⟨powerData, total, valid⟩ (h, some ⟨e0, t0⟩) =
      ⟨powerData.set h (e0, t0), total, valid⟩) ∧
    getPowerStats ops ⟨ZE_RESULT_SUCCESS, [(h, some ⟨e0, t0⟩)]⟩ powerData out =
      (powerData.set h (e0, t0), out.str "Power: n/a\n") := by
  have hs : ∀ total valid, powerStep ops ⟨powerData, total, valid⟩ (h, some ⟨e0, t0⟩) =
      ⟨powerData.set h (e0, t0), total, valid⟩ := by
    intro total valid
    exact powerStep_cold ops ⟨powerData, total, valid⟩ h ⟨e0, t0⟩ hcold
  refine ⟨hs, ?_⟩
  rw [getPowerStats_single, hs]
  simp

/-- Claim C3: for every handle `h` with stored sample `(e0, t0)` and every successful read
`(e1, t1)` with `t1 = t0`, the power value of the domain is the double `0.0` whatever `e1`
is. The value does not depend on the division (it is the same under every division
operation), the step is total, and the domain counts as one valid sample: `validSamples`
grows by one and the device's power line is printed from `0.0 + 0.0` divided by `1`. -/
theorem equal_timestamps_give_zero {F : Type} (ops : DoubleOps F) (powerData : PowerData)
    (h : zes_pwr_handle_t) (e0 t0 e1 : Nat) (out : OStream)
    (hstored : powerData h = some (e0, t0)) :
    powerUsage ops (e0, t0) ⟨e1, t0⟩ = ops.zero ∧
    (∀ d : F → F → F, powerUsage { ops with div := d } (e0, t0) ⟨e1, t0⟩ = ops.zero) ∧
    (∀ total valid, powerStep ops ⟨powerData, total, valid⟩ (h, some ⟨e1, t0⟩) =
      ⟨powerData.set h (e1, t0), ops.add total ops.zero, valid + 1⟩) ∧
    getPowerStats ops ⟨ZE_RESULT_SUCCESS, [(h, some ⟨e1, t0⟩)]⟩ powerData out =
      (powerData.set h (e1, t0),
        ((({ out with fixed := true, precision := 2 } : OStream).str "Power: ").dbl ops
          (ops.div (ops.add ops.zero ops.zero) (ops.ofNat 1))).str " W\n") := by
  have hu : ∀ o : DoubleOps F, powerUsage o (e0, t0) ⟨e1, t0⟩ = o.zero := by
    intro o
    simp [powerUsage, subU64_self]
  have hs : ∀ total valid, powerStep ops ⟨powerData, total, valid⟩ (h, some ⟨e1, t0⟩) =
      ⟨powerData.set h (e1, t0), ops.add total ops.zero, valid + 1⟩ := by
    intro total valid
    rw [powerStep_warm ops ⟨powerData, total, valid⟩ h ⟨e1, t0⟩ (e0, t0) hstored, hu ops]
  refine ⟨hu ops, fun d => hu { ops with div := d }, hs, ?_⟩
  rw [getPowerStats_single, hs]
  simp

/-- Claim C10: `energyDelta` and `timeDelta` are unsigned 64-bit differences: for every
stored `(e0, t0)` and every successful read `(e1, t1)`, `energyDelta = (e1 - e0) mod 2^64`
and `timeDelta = (t1 - t0) mod 2^64`. A decreasing counter is not a cold start: when
`e1 < e0` and `t1 > t0` the power value is `(2^64 + e1 - e0) / (t1 - t0)`, and when
`t1 < t0` the divisor is `2^64 + t1 - t0`, which is not zero, so the division is taken; in
both cases the sample is added to the total and counts as valid. -/
theorem deltas_wrap_modulo_two_pow_64 {F : Type} (ops : DoubleOps F) (powerData : PowerData)
    (h : zes_pwr_handle_t) (e0 t0 e1 t1 : Nat)
    (hstored : powerData h = some (e0, t0))
    (he0 : e0 < 2 ^ 64) (ht0 : t0 < 2 ^ 64) (ht1 : t1 < 2 ^ 64) :
    ((subU64 e1 e0 : Nat) : Int) = ((e1 : Int) - (e0 : Int)) % 2 ^ 64 ∧
    ((subU64 t1 t0 : Nat) : Int) = ((t1 : Int) - (t0 : Int)) % 2 ^ 64 ∧
    powerUsage ops (e0, t0) ⟨e1, t1⟩ =
      (if subU64 t1 t0 > 0 then ops.div (ops.ofNat (subU64 e1 e0)) (ops.ofNat (subU64 t1 t0))
       else ops.zero) ∧
    (e1 < e0 → t0 < t1 →
      powerUsage ops (e0, t0) ⟨e1, t1⟩ =
        ops.div (ops.ofNat (2 ^ 64 + e1 - e0)) (ops.ofNat (t1 - t0))) ∧
    (t1 < t0 →
      0 < 2 ^ 64 + t1 - t0 ∧
      powerUsage ops (e0, t0) ⟨e1, t1⟩ =
        ops.div (ops.ofNat (subU64 e1 e0)) (ops.ofNat (2 ^ 64 + t1 - t0))) ∧
    (∀ total valid, powerStep ops ⟨powerData, total, valid⟩ (h, some ⟨e1, t1⟩) =
      ⟨powerData.set h (e1, t1), ops.add total (powerUsage ops (e0, t0) ⟨e1, t1⟩),
        valid + 1⟩) := by
  refine ⟨subU64_emod e1 e0, subU64_emod t1 t0, rfl, ?_, ?_, ?_⟩
  · intro hlt htt
    have h1 : subU64 e1 e0 = 2 ^ 64 + e1 - e0 := subU64_of_lt e1 e0 hlt he0
    have h2 : subU64 t1 t0 = t1 - t0 := subU64_of_le t1 t0 (Nat.le_of_lt htt) ht1
    have h3 : 0 < t1 - t0 := Nat.sub_pos_of_lt htt
    simp [powerUsage, h1, h2, h3]
  · intro htt
    have h2 : subU64 t1 t0 = 2 ^ 64 + t1 - t0 := subU64_of_lt t1 t0 htt ht0
    have h3 : 0 < 2 ^ 64 + t1 - t0 := by omega
    refine ⟨h3, ?_⟩
    show (if subU64 t1 t0 > 0 then ops.div (ops.ofNat (subU64 e1 e0)) (ops.ofNat (subU64 t1 t0))
      else ops.zero) = _
    rw [h2, if_pos h3]
  · intro total valid
    exact powerStep_warm ops ⟨powerData, total, valid⟩ h ⟨e1, t1⟩ (e0, t0) hstored

theorem powerStep_powerData {F : Type} (ops : DoubleOps F) (acc : PowerAcc F)
    (entry : zes_pwr_handle_t × Option zes_power_energy_counter_t) :
    (powerStep ops acc entry).powerData =
      match entry.2 with
      | none => acc.powerData
      | some counter => acc.powerData.set entry.1 (counter.energy, counter.timestamp) := by
  obtain ⟨h, r⟩ := entry
  cases r with
  | none => rfl
  | some counter =>
    cases hp : acc.powerData h with
    | none => simp [powerStep, hp]
    | some prev => simp [powerStep, hp]

theorem powerStep_powerData_other {F : Type} (ops : DoubleOps F) (acc : PowerAcc F)
    (entry : zes_pwr_handle_t × Option zes_power_energy_counter_t) (k : zes_pwr_handle_t)
    (hk : k ≠ entry.1 ∨ entry.2 = none) :
    (powerStep ops acc entry).powerData k = acc.powerData k := by
  rw [powerStep_powerData]
  obtain ⟨h, r⟩ := entry
  cases r with
  | none => rfl
  | some counter =>
    rcases hk with hk | hk
    · simp [PowerData.set, hk]
    · simp at hk

theorem powerLoop_powerData_other {F : Type} (ops : DoubleOps F)
    (powerHandles : List (zes_pwr_handle_t × Option zes_power_energy_counter_t))
    (acc : PowerAcc F) (k : zes_pwr_handle_t)
    (hk : ∀ counter, (k, some counter) ∉ powerHandles) :
    (powerLoop ops acc powerHandles).powerData k = acc.powerData k := by
  induction powerHandles generalizing acc with
  | nil => rfl
  | cons entry rest ih =>
    have hrest : ∀ counter, (k, some counter) ∉ rest := fun counter hmem =>
      hk counter (List.mem_cons_of_mem _ hmem)
    have hstep : (powerStep ops acc entry).powerData k = acc.powerData k := by
      apply powerStep_powerData_other
      by_cases hke : k = entry.1
      · right
        cases hr : entry.2 with
        | none => rfl
        | some counter =>
          exfalso
          apply hk counter
          have : entry = (k, some counter) := by
            obtain ⟨a, b⟩ := entry
            simp at hke hr
            simp [hke, hr]
          rw [this]
          exact List.mem_cons_self _ _
      · left; exact hke
    show (powerLoop ops (powerStep ops acc entry) rest).powerData k = _
    rw [ih (powerStep ops acc entry) hrest, hstep]

theorem powerLoop_powerData_read {F : Type} (ops : DoubleOps F)
    (powerHandles : List (zes_pwr_handle_t × Option zes_power_energy_counter_t))
    (acc : PowerAcc F) (h : zes_pwr_handle_t) (counter : zes_power_energy_counter_t)
    (hdistinct : DistinctReads powerHandles) (hmem : (h, some counter) ∈ powerHandles) :
    (powerLoop ops acc powerHandles).powerData h = some (counter.energy, counter.timestamp) := by
  induction powerHandles generalizing acc with
  | nil => simp at hmem
  | cons entry rest ih =>
    rw [DistinctReads, List.pairwise_cons] at hdistinct
    show (powerLoop ops (powerStep ops acc entry) rest).powerData h = _
    rcases List.mem_cons.mp hmem with heq | hin
    · have hnot : ∀ c, (h, some c) ∉ rest := by
        intro c hc
        have hne := hdistinct.1 (h, some c) hc (by rw [← heq]; rfl) rfl
        rw [← heq] at hne
        exact hne rfl
      rw [powerLoop_powerData_other ops rest _ h hnot, powerStep_powerData, ← heq]
      simp [PowerData.set]
    · exact ih (powerStep ops acc entry) hdistinct.2 hin

theorem validValues_congr {F : Type} (ops : DoubleOps F) (p q : PowerData)
    (powerHandles : List (zes_pwr_handle_t × Option zes_power_energy_counter_t))
    (hpq : ∀ entry ∈ powerHandles, entry.2.isSome = true → p entry.1 = q entry.1) :
    validValues ops p powerHandles = validValues ops q powerHandles := by
  induction powerHandles with
  | nil => rfl
  | cons entry rest ih =>
    have h2 := ih (fun e he => hpq e (List.mem_cons_of_mem _ he))
    simp only [validValues, List.filterMap_cons] at h2 ⊢
    rw [h2]
    cases hr : entry.2 with
    | none => rfl
    | some counter =>
      have h1 : p entry.1 = q entry.1 := hpq entry (List.mem_cons_self _ _) (by rw [hr]; rfl)
      rw [h1]

theorem powerLoop_eq_validValues {F : Type} (ops : DoubleOps F)
    (powerHandles : List (zes_pwr_handle_t × Option zes_power_energy_counter_t))
    (acc : PowerAcc F) (hdistinct : DistinctReads powerHandles) :
    (powerLoop ops acc powerHandles).totalPowerUsage =
        (validValues ops acc.powerData powerHandles).foldl ops.add acc.totalPowerUsage ∧
      (powerLoop ops acc powerHandles).validSamples =
        acc.validSamples + (validValues ops acc.powerData powerHandles).length := by
  induction powerHandles generalizing acc with
  | nil => exact ⟨rfl, rfl⟩
  | cons entry rest ih =>
    rw [DistinctReads, List.pairwise_cons] at hdistinct
    have hrest : validValues ops (powerStep ops acc entry).powerData rest =
        validValues ops acc.powerData rest := by
      apply validValues_congr
      intro e he hsome
      apply powerStep_powerData_other
      cases hr : entry.2 with
      | none => right; rfl
      | some counter =>
        left
        intro heq
        exact hdistinct.1 e he (by rw [hr]; rfl) hsome heq.symm
    have ih1 := ih (powerStep ops acc entry) hdistinct.2
    rw [hrest] at ih1
    show (powerLoop ops (powerStep ops acc entry) rest).totalPowerUsage = _ ∧
      (powerLoop ops (powerStep ops acc entry) rest).validSamples = _
    rw [ih1.1, ih1.2]
    obtain ⟨h, r⟩ := entry
    cases r with
    | none => simp [validValues, powerStep]
    | some counter =>
      cases hp : acc.powerData h with
      | none => simp [validValues, powerStep, hp]
      | some prev =>
        simp [validValues, powerStep, hp]
        omega

theorem getPowerStats_eq {F : Type} (ops : DoubleOps F) (r : PowerResponses)
    (powerData : PowerData) (out : OStream) (henum : r.enumResult = ZE_RESULT_SUCCESS) :
    getPowerStats ops r powerData out =
      let acc := powerLoop ops ⟨powerData, ops.zero, 0⟩ r.powerHandles
      if acc.validSamples > 0 then
        (acc.powerData, ((({ out with fixed := true, precision := 2 } : OStream).str "Power: ").dbl ops
          (ops.div acc.totalPowerUsage (ops.ofNat acc.validSamples))).str " W\n")
      else (acc.powerData, out.str "Power: n/a\n") := by
  have hloop : (if r.powerHandles.length > 0 then
        powerLoop ops (⟨powerData, ops.zero, 0⟩ : PowerAcc F) r.powerHandles
      else ⟨powerData, ops.zero, 0⟩) = powerLoop ops ⟨powerData, ops.zero, 0⟩ r.powerHandles := by
    cases hl : r.powerHandles with
    | nil => rfl
    | cons a l => simp
  simp only [getPowerStats, henum, ne_eq, not_true_eq_false, if_false, hloop]

theorem getPowerStats_powerData {F : Type} (ops : DoubleOps F) (r : PowerResponses)
    (powerData : PowerData) (out : OStream) :
    (getPowerStats ops r powerData out).1 =
      if r.enumResult = ZE_RESULT_SUCCESS then
        (powerLoop ops ⟨powerData, ops.zero, 0⟩ r.powerHandles).powerData
      else powerData := by
  by_cases henum : r.enumResult = ZE_RESULT_SUCCESS
  · rw [getPowerStats_eq ops r powerData out henum, if_pos henum]
    simp only []
    split <;> rfl
  · simp [getPowerStats, henum]

theorem Fraction.toRat_add (a b : Fraction) (ha : a.den ≠ 0) (hb : b.den ≠ 0) :
    (Fraction.add a b).toRat = a.toRat + b.toRat ∧ (Fraction.add a b).den ≠ 0 := by
  constructor
  · have ha1 : (a.den : ℚ) ≠ 0 := by exact_mod_cast ha
    have hb1 : (b.den : ℚ) ≠ 0 := by exact_mod_cast hb
    simp only [Fraction.add, Fraction.toRat]
    push_cast
    field_simp
  · simp [Fraction.add, ha, hb]

theorem Fraction.toRat_foldl_add (values : List Fraction) (init : Fraction)
    (hinit : init.den ≠ 0) (hvalues : ∀ v ∈ values, v.den ≠ 0) :
    (values.foldl Fraction.add init).toRat = init.toRat + (values.map Fraction.toRat).sum ∧
      (values.foldl Fraction.add init).den ≠ 0 := by
  induction values generalizing init with
  | nil => simp [hinit]
  | cons v rest ih =>
    have hv : v.den ≠ 0 := hvalues v (List.mem_cons_self _ _)
    have hadd := Fraction.toRat_add init v hinit hv
    have := ih (Fraction.add init v) hadd.2 (fun w hw => hvalues w (List.mem_cons_of_mem _ hw))
    simp only [List.foldl_cons, List.map_cons, List.sum_cons]
    rw [this.1, hadd.1]
    exact ⟨by ring, this.2⟩

theorem Fraction.toRat_div_ofNat (x : Fraction) (n : Nat) (hn : n ≠ 0) :
    (idealDouble.div x (idealDouble.ofNat n)).toRat = x.toRat / (n : ℚ) := by
  have h1 : ((n : Nat) : Int) ≠ 0 := by exact_mod_cast hn
  have h2 : 0 < ((n : Nat) : Int) := by omega
  simp only [idealDouble, Fraction.div, Fraction.toRat, h1, if_false]
  rw [Int.sign_eq_one_of_pos h2]
  simp only [Int.natAbs_ofNat, Nat.cast_one, mul_one]
  push_cast
  rw [div_div]

theorem powerUsage_ideal_den (prev : Nat × Nat) (counter : zes_power_energy_counter_t) :
    (powerUsage idealDouble prev counter).den ≠ 0 := by
  unfold powerUsage
  simp only []
  split
  · rename_i hpos
    have h1 : ((subU64 counter.timestamp prev.2 : Nat) : Int) ≠ 0 := by omega
    simp only [idealDouble, Fraction.div, h1, if_false]
    simp
    omega
  · simp [idealDouble]

theorem validValues_ideal_den (powerData : PowerData)
    (powerHandles : List (zes_pwr_handle_t × Option zes_power_energy_counter_t)) :
    ∀ v ∈ validValues idealDouble powerData powerHandles, v.den ≠ 0 := by
  intro v hv
  simp only [validValues, List.mem_filterMap] at hv
  obtain ⟨entry, _, hentry⟩ := hv
  split at hentry
  · simp only [Option.some.injEq] at hentry
    rw [← hentry]
    exact powerUsage_ideal_den _ _
  · simp at hentry

/-- Claim C4: for every device and tick in which the power-domain enumeration succeeds
(no handle being read successfully twice), the power line is the mean of the power
values of exactly those domains whose read succeeded and that had a stored sample: the
sum of those values divided by their number, printed with two decimals. Domains on their
first sample or with a failed read enter neither the sum nor the divisor. When there is
no such domain the line is "Power: n/a". Without rounding the mean is the rational
arithmetic mean of the values. -/
theorem power_line_is_mean_of_valid_domains {F : Type} (ops : DoubleOps F) (r : PowerResponses)
    (powerData : PowerData) (out : OStream)
    (henum : r.enumResult = ZE_RESULT_SUCCESS)
    (hdistinct : DistinctReads r.powerHandles) :
    (getPowerStats ops r powerData out).2 =
      powerLine ops (validValues ops powerData r.powerHandles) out ∧
    (validValues ops powerData r.powerHandles = [] →
      (getPowerStats ops r powerData out).2 = out.str "Power: n/a\n") ∧
    (validValues ops powerData r.powerHandles ≠ [] →
      (getPowerStats ops r powerData out).2 =
        ((({ out with fixed := true, precision := 2 } : OStream).str "Power: ").dbl ops
          (ops.div ((validValues ops powerData r.powerHandles).foldl ops.add ops.zero)
            (ops.ofNat (validValues ops powerData r.powerHandles).length))).str " W\n") ∧
    (validValues idealDouble powerData r.powerHandles ≠ [] →
      (idealDouble.div
          ((validValues idealDouble powerData r.powerHandles).foldl idealDouble.add
            idealDouble.zero)
          (idealDouble.ofNat (validValues idealDouble powerData r.powerHandles).length)).toRat =
        ((validValues idealDouble powerData r.powerHandles).map Fraction.toRat).sum /
          ((validValues idealDouble powerData r.powerHandles).length : ℚ)) := by
  have hloop := powerLoop_eq_validValues ops r.powerHandles ⟨powerData, ops.zero, 0⟩ hdistinct
  simp only [Nat.zero_add] at hloop
  have hmain : (getPowerStats ops r powerData out).2 =
      powerLine ops (validValues ops powerData r.powerHandles) out := by
    rw [getPowerStats_eq ops r powerData out henum]
    simp only [hloop.1, hloop.2, powerLine]
    by_cases hlen : (validValues ops powerData r.powerHandles).length = 0
    · simp [hlen]
    · have hpos : (validValues ops powerData r.powerHandles).length > 0 := Nat.pos_of_ne_zero hlen
      simp [hlen, hpos]
  refine ⟨hmain, ?_, ?_, ?_⟩
  · intro hempty
    rw [hmain, hempty]
    rfl
  · intro hne
    rw [hmain]
    have hlen : (validValues ops powerData r.powerHandles).length ≠ 0 := by
      intro h0
      exact hne (List.length_eq_zero.mp h0)
    simp [powerLine, hlen]
  · intro hne
    have hlen : (validValues idealDouble powerData r.powerHandles).length ≠ 0 := by
      intro h0
      exact hne (List.length_eq_zero.mp h0)
    rw [Fraction.toRat_div_ofNat _ _ hlen]
    have hsum := (Fraction.toRat_foldl_add (validValues idealDouble powerData r.powerHandles)
      idealDouble.zero (by simp [idealDouble]) (validValues_ideal_den powerData r.powerHandles)).1
    have hfold : (validValues idealDouble powerData r.powerHandles).foldl idealDouble.add
        idealDouble.zero =
        (validValues idealDouble powerData r.powerHandles).foldl Fraction.add idealDouble.zero := rfl
    rw [hfold, hsum]
    simp [idealDouble, Fraction.toRat]

/-- Claim C8: for every power-domain handle `h`: a loop step whose read of `h` succeeds
with `(e, t)` leaves `powerData[h] = (e, t)`, whether or not a power value was produced,
and leaves every other handle's entry unchanged; a step whose read fails changes nothing
at all (neither `powerData` nor the total nor the sample count). Over a whole tick in
which no handle is read successfully twice: a handle read successfully holds its new sample afterwards, and
a handle with no successful read keeps its previous entry or stays absent. -/
theorem powerData_follows_successful_reads {F : Type} (ops : DoubleOps F) (r : PowerResponses)
    (powerData : PowerData) (out : OStream) (acc : PowerAcc F) (h : zes_pwr_handle_t)
    (hdistinct : DistinctReads r.powerHandles) :
    (∀ counter,
      (powerStep ops acc (h, some counter)).powerData h =
          some (counter.energy, counter.timestamp) ∧
        ∀ k, k ≠ h → (powerStep ops acc (h, some counter)).powerData k = acc.powerData k) ∧
    powerStep ops acc (h, none) = acc ∧
    (∀ counter, r.enumResult = ZE_RESULT_SUCCESS → (h, some counter) ∈ r.powerHandles →
      (getPowerStats ops r powerData out).1 h = some (counter.energy, counter.timestamp)) ∧
    ((∀ counter, (h, some counter) ∉ r.powerHandles) →
      (getPowerStats ops r powerData out).1 h = powerData h) := by
  refine ⟨?_, rfl, ?_, ?_⟩
  · intro counter
    constructor
    · rw [powerStep_powerData]
      simp [PowerData.set]
    · intro k hk
      exact powerStep_powerData_other ops acc (h, some counter) k (Or.inl hk)
  · intro counter henum hmem
    rw [getPowerStats_powerData, if_pos henum]
    exact powerLoop_powerData_read ops r.powerHandles _ h counter hdistinct hmem
  · intro hnot
    rw [getPowerStats_powerData]
    split
    · exact powerLoop_powerData_other ops r.powerHandles _ h hnot
    · rfl

/-! ## Lemmas on the repaint loop -/

theorem countLines_append (a b : String) : countLines (a ++ b) = countLines a + countLines b := by
  simp [countLines, String.data_append, List.count_append]

theorem countLines_padding (n : Nat) : countLines (padding n) = n := by
  simp [countLines, padding]

theorem countLines_empty : countLines "" = 0 := rfl

theorem paint_maxLinesUsed (m : Nat) (output : String) :
    (paint m output).maxLinesUsed = max m (countLines output) := by
  simp only [paint]
  split <;> omega

theorem paint_pad (m : Nat) (output : String) :
    (paint m output).pad = padding ((paint m output).maxLinesUsed - countLines output) := by
  simp only [paint]
  by_cases h1 : countLines output > m
  · simp [h1, padding]
  · by_cases h2 : countLines output < m
    · simp [h1, h2]
    · have : m - countLines output = 0 := by omega
      simp [h1, h2, this, padding]

theorem cursorUp_eq_empty_iff (m : Nat) : cursorUp m = "" ↔ m = 0 := by
  constructor
  · intro h
    by_contra hm
    have hpos : m > 0 := Nat.pos_of_ne_zero hm
    simp only [cursorUp, hpos, if_true] at h
    have hlen := congrArg String.length h
    simp only [String.length_append] at hlen
    have h2 : "\x1b[".length = 2 := by decide
    have h0 : "".length = 0 := by decide
    omega
  · intro h
    simp [cursorUp, h]

theorem paintLoop_snd (frames : List String) (m : Nat) :
    (paintLoop m frames).2 = (frames.map countLines).foldl max m := by
  induction frames generalizing m with
  | nil => rfl
  | cons output rest ih =>
    simp only [paintLoop, List.map_cons, List.foldl_cons]
    rw [ih, paint_maxLinesUsed]

theorem paintLoop_append_single (frames : List String) (output : String) (m : Nat) :
    paintLoop m (frames ++ [output]) =
      ((paintLoop m frames).1 ++ [paint (paintLoop m frames).2 output],
        (paint (paintLoop m frames).2 output).maxLinesUsed) := by
  induction frames generalizing m with
  | nil => rfl
  | cons first rest ih =>
    show (paint m first :: (paintLoop (paint m first).maxLinesUsed (rest ++ [output])).1,
        (paintLoop (paint m first).maxLinesUsed (rest ++ [output])).2) = _
    rw [ih]
    rfl

theorem paintLoop_mem (frames : List String) (m : Nat) (p : Painted)
    (hp : p ∈ (paintLoop m frames).1) :
    ∃ m0 output, output ∈ frames ∧ p = paint m0 output := by
  induction frames generalizing m with
  | nil => simp [paintLoop] at hp
  | cons first rest ih =>
    simp only [paintLoop, List.mem_cons] at hp
    rcases hp with hp | hp
    · exact ⟨m, first, List.mem_cons_self _ _, hp⟩
    · obtain ⟨m0, output, hmem, heq⟩ := ih _ hp
      exact ⟨m0, output, List.mem_cons_of_mem _ hmem, heq⟩

theorem runStep_exited {F : Type} (ops : DoubleOps F) (s : RunState)
    (tick : List (DeviceResponses F)) (hexit : s.exited.isSome = true) :
    runStep ops s tick = s := by
  simp [runStep, hexit]

theorem run_foldl_exited {F : Type} (ops : DoubleOps F) (ticks : List (List (DeviceResponses F)))
    (s : RunState) (hexit : s.exited.isSome = true) :
    ticks.foldl (runStep ops) s = s := by
  induction ticks with
  | nil => rfl
  | cons tick rest ih =>
    rw [List.foldl_cons, runStep_exited ops s tick hexit, ih]

theorem run_foldl_maxLinesUsed {F : Type} (ops : DoubleOps F)
    (ticks : List (List (DeviceResponses F))) (s : RunState) :
    (ticks.foldl (runStep ops) s).maxLinesUsed =
      (paintLoop s.maxLinesUsed (framesFrom ops s ticks)).2 := by
  induction ticks generalizing s with
  | nil => rfl
  | cons tick rest ih =>
    rw [List.foldl_cons]
    by_cases hexit : s.exited.isSome = true
    · rw [runStep_exited ops s tick hexit, run_foldl_exited ops rest s hexit]
      simp [framesFrom, hexit, paintLoop]
    · cases hm : (printDeviceInfo ops tick ⟨s.powerData, OStream.fresh, s.stdout, none⟩).exited with
      | some code =>
        have hstep : runStep ops s tick =
            { s with
              powerData :=
                (printDeviceInfo ops tick ⟨s.powerData, OStream.fresh, s.stdout, none⟩).powerData
              stdout :=
                (printDeviceInfo ops tick ⟨s.powerData, OStream.fresh, s.stdout, none⟩).stdout
              exited := some code } := by
          simp [runStep, hexit, hm]
        rw [hstep]
        rw [run_foldl_exited ops rest
          { s with
            powerData :=
              (printDeviceInfo ops tick ⟨s.powerData, OStream.fresh, s.stdout, none⟩).powerData
            stdout :=
              (printDeviceInfo ops tick ⟨s.powerData, OStream.fresh, s.stdout, none⟩).stdout
            exited := some code } rfl]
        simp [framesFrom, hexit, hm, paintLoop]
      | none =>
        have hstep : (runStep ops s tick).maxLinesUsed =
            (paint s.maxLinesUsed
              (printDeviceInfo ops tick
                ⟨s.powerData, OStream.fresh, s.stdout, none⟩).out.text).maxLinesUsed := by
          simp [runStep, hexit, hm]
        rw [ih (runStep ops s tick), hstep]
        simp [framesFrom, hexit, hm, paintLoop]

/-- Claim C5: for every sequence of frames painted by the loop of `run` starting from
`maxLinesUsed = 0`: after the frames so far, `maxLinesUsed` is the largest of their line
counts (for `run` over any ticks, and for the loop over any given frame texts); the repaint of the next frame begins with the cursor-up for exactly that value,
"ESC [ n A" when it is positive and nothing when it is zero, and nothing in particular on
the first frame. -/
theorem maxLinesUsed_is_high_water_mark {F : Type} (ops : DoubleOps F)
    (ticks : List (List (DeviceResponses F))) (frames : List String) (output : String) :
    (run ops ticks).maxLinesUsed =
      highWater ((framesFrom ops RunState.initial ticks).map countLines) ∧
    (paintLoop 0 frames).2 = highWater (frames.map countLines) ∧
    paintLoop 0 (frames ++ [output]) =
      ((paintLoop 0 frames).1 ++ [paint (highWater (frames.map countLines)) output],
        highWater ((frames ++ [output]).map countLines)) ∧
    (paint (highWater (frames.map countLines)) output).up =
      cursorUp (highWater (frames.map countLines)) ∧
    (cursorUp (highWater (frames.map countLines)) = "" ↔
      highWater (frames.map countLines) = 0) ∧
    (0 < highWater (frames.map countLines) →
      cursorUp (highWater (frames.map countLines)) =
        "\x1b[" ++ toString (highWater (frames.map countLines)) ++ "A") ∧
    (paintLoop 0 (output :: frames)).1.head? = some (paint 0 output) ∧
    (paint 0 output).up = "" := by
  have h1 : (paintLoop 0 frames).2 = highWater (frames.map countLines) := paintLoop_snd frames 0
  have h0 : (run ops ticks).maxLinesUsed =
      highWater ((framesFrom ops RunState.initial ticks).map countLines) := by
    unfold run
    rw [run_foldl_maxLinesUsed, paintLoop_snd]
    rfl
  refine ⟨h0, h1, ?_, rfl, cursorUp_eq_empty_iff _, ?_, rfl, rfl⟩
  · rw [paintLoop_append_single, h1, paint_maxLinesUsed]
    simp [highWater, List.foldl_append]
  · intro hpos
    simp [cursorUp, hpos]

/-- What one repaint writes after the erase sequence: the line breaks of the frame text and
of the padding number exactly `maxLinesUsed` at the end of the iteration, the amount of the
next cursor-up. The padding is `maxLinesUsed - currentLines` line breaks when the frame is
shorter than `maxLinesUsed` and empty otherwise, and `maxLinesUsed` is the larger of its old
value and the frame's line count. -/
theorem paint_line_breaks (m : Nat) (output next : String) (frames : List String) :
    countLines ((paint m output).frame ++ (paint m output).pad) =
      (paint m output).maxLinesUsed ∧
    (paint m output).text =
      cursorUp m ++ "\x1b[J" ++ ((paint m output).frame ++ (paint m output).pad) ∧
    (paint m output).frame = output ∧
    (countLines output < m →
      (paint m output).pad = padding (m - countLines output) ∧
        countLines (paint m output).pad = m - countLines output ∧
        (paint m output).maxLinesUsed = m) ∧
    (m ≤ countLines output →
      (paint m output).pad = "" ∧ (paint m output).maxLinesUsed = countLines output) ∧
    (paint m output).maxLinesUsed = max m (countLines output) ∧
    (paint (paint m output).maxLinesUsed next).up = cursorUp (paint m output).maxLinesUsed ∧
    (∀ p ∈ (paintLoop 0 frames).1, countLines (p.frame ++ p.pad) = p.maxLinesUsed) := by
  have hcount : ∀ (m0 : Nat) (o : String),
      countLines ((paint m0 o).frame ++ (paint m0 o).pad) = (paint m0 o).maxLinesUsed := by
    intro m0 o
    rw [countLines_append, paint_pad, countLines_padding, paint_maxLinesUsed]
    show countLines o + _ = _
    omega
  refine ⟨hcount m output, ?_, rfl, ?_, ?_, paint_maxLinesUsed m output, rfl, ?_⟩
  · simp [Painted.text, paint, String.append_assoc]
  · intro hlt
    have hmax : (paint m output).maxLinesUsed = m := by
      rw [paint_maxLinesUsed]; omega
    have hpad : (paint m output).pad = padding (m - countLines output) := by
      rw [paint_pad, hmax]
    exact ⟨hpad, by rw [hpad, countLines_padding], hmax⟩
  · intro hle
    have hmax : (paint m output).maxLinesUsed = countLines output := by
      rw [paint_maxLinesUsed]; omega
    refine ⟨?_, hmax⟩
    rw [paint_pad, hmax]
    simp [padding]
  · intro p hp
    obtain ⟨m0, o, _, heq⟩ := paintLoop_mem frames 0 p hp
    rw [heq]
    exact hcount m0 o

/-! ## Lemmas on the device loop and the process list -/

theorem deviceStep_unresolved {F : Type} (ops : DoubleOps F) (m : Monitor)
    (device : DeviceResponses F) (hrun : m.exited = none)
    (hfail : (getSysmanDeviceHandleFromCoreDeviceHandle device.sysman).2 = .returned none) :
    deviceStep ops m device =
      { m with
        out := ((m.out.str "Device: ").str device.name).str "\n"
        stdout := m.stdout ++ (getSysmanDeviceHandleFromCoreDeviceHandle device.sysman).1 } := by
  unfold deviceStep
  rw [hrun]
  simp only [Option.isSome_none, Bool.false_eq_true, if_false]
  generalize getSysmanDeviceHandleFromCoreDeviceHandle device.sysman = res at hfail ⊢
  obtain ⟨printed, completion⟩ := res
  simp only at hfail
  subst hfail
  rfl

theorem printDeviceInfo_append {F : Type} (ops : DoubleOps F)
    (before after : List (DeviceResponses F)) (m : Monitor) :
    printDeviceInfo ops (before ++ after) m =
      printDeviceInfo ops after (printDeviceInfo ops before m) := by
  simp [printDeviceInfo, List.foldl_append]

theorem deviceStep_exited {F : Type} (ops : DoubleOps F) (m : Monitor)
    (device : DeviceResponses F) (hexit : m.exited.isSome = true) :
    deviceStep ops m device = m := by
  simp [deviceStep, hexit]

theorem printDeviceInfo_exited {F : Type} (ops : DoubleOps F)
    (devices : List (DeviceResponses F)) (m : Monitor) (hexit : m.exited.isSome = true) :
    printDeviceInfo ops devices m = m := by
  induction devices with
  | nil => rfl
  | cons device rest ih =>
    show printDeviceInfo ops rest (deviceStep ops m device) = m
    rw [deviceStep_exited ops m device hexit, ih]

theorem deviceStep_driverless {F : Type} (ops : DoubleOps F) (m : Monitor)
    (device : DeviceResponses F) (hrun : m.exited = none)
    (hprops : device.sysman.propertiesResult = ZE_RESULT_SUCCESS)
    (hdrivers : device.sysman.driverCount = 0 ∨
      device.sysman.driverCountResult ≠ ZE_RESULT_SUCCESS) :
    deviceStep ops m device =
      { m with
        out := ((m.out.str "Device: ").str device.name).str "\n"
        stdout := m.stdout ++ "Error could not retrieve driver\n"
        exited := some (-1) } := by
  have hres : getSysmanDeviceHandleFromCoreDeviceHandle device.sysman =
      ("Error could not retrieve driver\n", .exited (-1)) := by
    simp [getSysmanDeviceHandleFromCoreDeviceHandle, hprops, hdrivers]
  unfold deviceStep
  rw [hrun, hres]
  rfl

theorem resolution_exits_iff (r : SysmanResponses) :
    (getSysmanDeviceHandleFromCoreDeviceHandle r).2 = .exited (-1) ↔
      (r.propertiesResult = ZE_RESULT_SUCCESS ∧
        (r.driverCount = 0 ∨ r.driverCountResult ≠ ZE_RESULT_SUCCESS)) := by
  unfold getSysmanDeviceHandleFromCoreDeviceHandle
  by_cases h1 : r.propertiesResult = ZE_RESULT_SUCCESS
  · by_cases h2 : r.driverCount = 0 ∨ r.driverCountResult ≠ ZE_RESULT_SUCCESS
    · simp [h1, h2]
    · by_cases h3 : r.driverGetResult = ZE_RESULT_SUCCESS
      · simp [h1, h2, h3]
      · simp [h1, h2, h3]
  · simp [h1]

theorem resolution_null_iff (r : SysmanResponses) :
    (getSysmanDeviceHandleFromCoreDeviceHandle r).2 = .returned none ↔
      (r.propertiesResult ≠ ZE_RESULT_SUCCESS ∨
        (r.propertiesResult = ZE_RESULT_SUCCESS ∧ r.driverCount ≠ 0 ∧
          r.driverCountResult = ZE_RESULT_SUCCESS ∧
          (r.driverGetResult ≠ ZE_RESULT_SUCCESS ∨ lookupLoop r.lookups none = none))) := by
  unfold getSysmanDeviceHandleFromCoreDeviceHandle
  by_cases h1 : r.propertiesResult = ZE_RESULT_SUCCESS
  · by_cases h2 : r.driverCount = 0 ∨ r.driverCountResult ≠ ZE_RESULT_SUCCESS
    · rw [if_neg (not_not.mpr h1), if_pos h2]
      constructor
      · intro h
        cases h
      · intro h
        rcases h with h | h
        · exact absurd h1 h
        · rcases h2 with h2 | h2
          · exact absurd h2 h.2.1
          · exact absurd h.2.2.1 h2
    · have h2a : r.driverCount ≠ 0 := fun h => h2 (Or.inl h)
      have h2b : r.driverCountResult = ZE_RESULT_SUCCESS := by
        by_contra h
        exact h2 (Or.inr h)
      by_cases h3 : r.driverGetResult = ZE_RESULT_SUCCESS
      · simp [h1, h2a, h2b, h3]
      · simp [h1, h2a, h2b, h3]
  · simp [h1]

/-- Claim C7, as amended: for a device whose Sysman handle resolution returns a null
handle, the frame text receives exactly the header line "Device: <name>" of that device
and none of its power, memory, temperature or process lines; the stream's formatting
flags and `powerData` are unchanged, the loop goes on, and the devices before and after it
are printed in enumeration order. The resolution returns a null handle exactly when
`zeDeviceGetProperties` fails, or the second `zesDriverGet` call (the one that fetches the
drivers) fails, or no driver yields a handle. The process exits with status -1, so that
the devices after it are not visited, exactly when `zeDeviceGetProperties` succeeded and the
counting call `zesDriverGet(&driverCount, nullptr)` fails or reports no driver. -/
theorem unresolved_device_emits_only_header {F : Type} (ops : DoubleOps F)
    (before after : List (DeviceResponses F)) (device : DeviceResponses F) (m : Monitor)
    (hrun : (printDeviceInfo ops before m).exited = none) :
    ((getSysmanDeviceHandleFromCoreDeviceHandle device.sysman).2 = .returned none →
      (deviceStep ops (printDeviceInfo ops before m) device).out =
          (((printDeviceInfo ops before m).out.str "Device: ").str device.name).str "\n" ∧
        (deviceStep ops (printDeviceInfo ops before m) device).out.text =
          (printDeviceInfo ops before m).out.text ++ "Device: " ++ device.name ++ "\n" ∧
        (deviceStep ops (printDeviceInfo ops before m) device).powerData =
          (printDeviceInfo ops before m).powerData ∧
        (deviceStep ops (printDeviceInfo ops before m) device).exited = none ∧
        printDeviceInfo ops (before ++ device :: after) m =
          printDeviceInfo ops after
            { printDeviceInfo ops before m with
              out := (((printDeviceInfo ops before m).out.str "Device: ").str device.name).str
                "\n"
              stdout := (printDeviceInfo ops before m).stdout ++
                (getSysmanDeviceHandleFromCoreDeviceHandle device.sysman).1 }) ∧
    ((getSysmanDeviceHandleFromCoreDeviceHandle device.sysman).2 = .returned none ↔
      (device.sysman.propertiesResult ≠ ZE_RESULT_SUCCESS ∨
        (device.sysman.propertiesResult = ZE_RESULT_SUCCESS ∧ device.sysman.driverCount ≠ 0 ∧
          device.sysman.driverCountResult = ZE_RESULT_SUCCESS ∧
          (device.sysman.driverGetResult ≠ ZE_RESULT_SUCCESS ∨
            lookupLoop device.sysman.lookups none = none)))) ∧
    ((getSysmanDeviceHandleFromCoreDeviceHandle device.sysman).2 = .exited (-1) ↔
      (device.sysman.propertiesResult = ZE_RESULT_SUCCESS ∧
        (device.sysman.driverCount = 0 ∨
          device.sysman.driverCountResult ≠ ZE_RESULT_SUCCESS))) ∧
    ((getSysmanDeviceHandleFromCoreDeviceHandle device.sysman).2 = .exited (-1) →
      (printDeviceInfo ops (before ++ device :: after) m).exited = some (-1) ∧
        printDeviceInfo ops (before ++ device :: after) m =
          deviceStep ops (printDeviceInfo ops before m) device ∧
        (deviceStep ops (printDeviceInfo ops before m) device).stdout =
          (printDeviceInfo ops before m).stdout ++ "Error could not retrieve driver\n") ∧
    (∀ code, (getSysmanDeviceHandleFromCoreDeviceHandle device.sysman).2 = .exited code →
      code = -1) := by
  refine ⟨?_, resolution_null_iff device.sysman, resolution_exits_iff device.sysman, ?_, ?_⟩
  · intro hfail
    have hstep := deviceStep_unresolved ops (printDeviceInfo ops before m) device hrun hfail
    refine ⟨?_, ?_, ?_, ?_, ?_⟩
    · rw [hstep]
    · rw [hstep]
      simp [OStream.str, String.append_assoc]
    · rw [hstep]
    · rw [hstep]
      exact hrun
    · rw [printDeviceInfo_append, ← hstep]
      rfl
  · intro hexited
    have hcond := (resolution_exits_iff device.sysman).mp hexited
    have hstep := deviceStep_driverless ops (printDeviceInfo ops before m) device hrun hcond.1
      hcond.2
    have hexit : (deviceStep ops (printDeviceInfo ops before m) device).exited.isSome = true := by
      rw [hstep]
      rfl
    have hall : printDeviceInfo ops (before ++ device :: after) m =
        deviceStep ops (printDeviceInfo ops before m) device := by
      rw [printDeviceInfo_append]
      show printDeviceInfo ops after (deviceStep ops (printDeviceInfo ops before m) device) = _
      exact printDeviceInfo_exited ops after _ hexit
    refine ⟨?_, hall, ?_⟩
    · rw [hall, hstep]
    · rw [hstep]
  · intro code hcode
    unfold getSysmanDeviceHandleFromCoreDeviceHandle at hcode
    split at hcode
    · cases hcode
    · split at hcode
      · simp only [Completion.exited.injEq] at hcode
        exact hcode.symm
      · split at hcode <;> cases hcode

/-- Claim C1 on the stored sample `(1000, 5000)` and the read `(1400, 6000)`: the power value
is `400 / 1000 = 2 / 5` and the line is "Power: 0.40 W". -/
theorem power_from_two_samples_witness :
    (storedOne 7 = some (1000, 5000) ∧ 1000 ≤ 1400 ∧ 5000 < 6000 ∧
      1400 < 2 ^ 64 ∧ 6000 < 2 ^ 64) ∧
    powerUsage idealDouble (1000, 5000) ⟨1400, 6000⟩ = ⟨400, 1000⟩ ∧
    (powerUsage idealDouble (1000, 5000) ⟨1400, 6000⟩).toRat = 2 / 5 ∧
    (getPowerStats idealDouble ⟨ZE_RESULT_SUCCESS, [(7, some ⟨1400, 6000⟩)]⟩ storedOne
      OStream.fresh).2.text = "Power: 0.40 W\n" := by
  have h := power_from_two_samples idealDouble storedOne 7 1000 5000 1400 6000 OStream.fresh
    (by decide) (by decide) (by decide) (by decide) (by decide)
  refine ⟨⟨by decide, by decide, by decide, by decide, by decide⟩, ?_, ?_, ?_⟩
  · rw [h.1]; decide
  · rw [h.2.2.2]; norm_num
  · rw [h.2.2.1]; decide

/-- Claim C2 on a handle without stored sample and the read `(1000, 5000)`: the line is "Power:
n/a". -/
theorem first_sample_gives_no_power_witness :
    storedOne 9 = none ∧
    powerStep idealDouble ⟨storedOne, ⟨0, 1⟩, 0⟩ (9, some ⟨1000, 5000⟩) =
      ⟨storedOne.set 9 (1000, 5000), ⟨0, 1⟩, 0⟩ ∧
    (getPowerStats idealDouble ⟨ZE_RESULT_SUCCESS, [(9, some ⟨1000, 5000⟩)]⟩ storedOne
      OStream.fresh).2.text = "Power: n/a\n" := by
  have h := first_sample_gives_no_power idealDouble storedOne 9 1000 5000 OStream.fresh
    (by decide)
  refine ⟨by decide, h.1 ⟨0, 1⟩ 0, ?_⟩
  rw [h.2]; decide

/-- Claim C3 on the stored sample `(1000, 5000)` and the read `(1400, 5000)`: the power value
is zero, one sample is counted and the line is "Power: 0.00 W". -/
theorem equal_timestamps_give_zero_witness :
    storedOne 7 = some (1000, 5000) ∧
    powerUsage idealDouble (1000, 5000) ⟨1400, 5000⟩ = ⟨0, 1⟩ ∧
    (powerStep idealDouble ⟨storedOne, ⟨0, 1⟩, 0⟩ (7, some ⟨1400, 5000⟩)).validSamples = 1 ∧
    (getPowerStats idealDouble ⟨ZE_RESULT_SUCCESS, [(7, some ⟨1400, 5000⟩)]⟩ storedOne
      OStream.fresh).2.text = "Power: 0.00 W\n" := by
  have h := equal_timestamps_give_zero idealDouble storedOne 7 1000 5000 1400 OStream.fresh
    (by decide)
  refine ⟨by decide, h.1, ?_, ?_⟩
  · rw [h.2.2.1]
  · rw [h.2.2.2]; decide

/-- Claim C4 on four domains, two of them with a stored sample and a successful read (values
0.40 and 0.30): the line is "Power: 0.35 W", the other two domains do not lower the mean;
without any such domain the line is "Power: n/a". -/
theorem power_line_is_mean_of_valid_domains_witness :
    (fourDomains.enumResult = ZE_RESULT_SUCCESS ∧ DistinctReads fourDomains.powerHandles) ∧
    validValues idealDouble storedThree fourDomains.powerHandles = [⟨400, 1000⟩, ⟨300, 1000⟩] ∧
    (getPowerStats idealDouble fourDomains storedThree OStream.fresh).2.text =
      "Power: 0.35 W\n" ∧
    (getPowerStats idealDouble noValidDomain storedThree OStream.fresh).2.text =
      "Power: n/a\n" := by
  have h := power_line_is_mean_of_valid_domains idealDouble fourDomains storedThree
    OStream.fresh (by decide) (by decide)
  have h0 := power_line_is_mean_of_valid_domains idealDouble noValidDomain storedThree
    OStream.fresh (by decide) (by decide)
  refine ⟨⟨by decide, by decide⟩, by decide, ?_, ?_⟩
  · rw [h.1]; decide
  · rw [h0.2.1 (by decide)]; decide

/-- Claim C8 on four domains: the three handles read successfully hold the new sample, the
handle whose read failed and a handle not enumerated keep their entry. -/
theorem powerData_follows_successful_reads_witness :
    DistinctReads fourDomains.powerHandles ∧
    (getPowerStats idealDouble fourDomains storedThree OStream.fresh).1 1 = some (1400, 6000) ∧
    (getPowerStats idealDouble fourDomains storedThree OStream.fresh).1 2 = some (7, 7) ∧
    (getPowerStats idealDouble fourDomains storedThree OStream.fresh).1 3 = storedThree 3 ∧
    (getPowerStats idealDouble fourDomains storedThree OStream.fresh).1 9 = storedThree 9 := by
  have h := fun k => powerData_follows_successful_reads idealDouble fourDomains storedThree
    OStream.fresh ⟨storedThree, ⟨0, 1⟩, 0⟩ k (by decide)
  refine ⟨by decide, ?_, ?_, ?_, ?_⟩
  · exact (h 1).2.2.1 ⟨1400, 6000⟩ (by decide) (by decide)
  · exact (h 2).2.2.1 ⟨7, 7⟩ (by decide) (by decide)
  · exact (h 3).2.2.2 (by intro c hc; simp [fourDomains] at hc)
  · exact (h 9).2.2.2 (by intro c hc; simp [fourDomains] at hc)

/-- Claim C10 on the stored sample `(1000, 5000)`: the read `(400, 6000)` gives the value
`(2^64 - 600) / 1000`, the read `(1400, 4000)` gives `400 / (2^64 - 1000)`, and both count as
one valid sample. -/
theorem deltas_wrap_modulo_two_pow_64_witness :
    (storedOne 7 = some (1000, 5000) ∧ 1000 < 2 ^ 64 ∧ 5000 < 2 ^ 64 ∧ 6000 < 2 ^ 64 ∧
      400 < 1000 ∧ 5000 < 6000 ∧ 4000 < 5000) ∧
    powerUsage idealDouble (1000, 5000) ⟨400, 6000⟩ = ⟨2 ^ 64 - 600, 1000⟩ ∧
    powerUsage idealDouble (1000, 5000) ⟨1400, 4000⟩ = ⟨400, 2 ^ 64 - 1000⟩ ∧
    (powerStep idealDouble ⟨storedOne, ⟨0, 1⟩, 0⟩ (7, some ⟨400, 6000⟩)).validSamples = 1 ∧
    (powerStep idealDouble ⟨storedOne, ⟨0, 1⟩, 0⟩ (7, some ⟨1400, 4000⟩)).validSamples = 1 := by
  have h := deltas_wrap_modulo_two_pow_64 idealDouble storedOne 7 1000 5000 400 6000
    (by decide) (by decide) (by decide) (by decide)
  have g := deltas_wrap_modulo_two_pow_64 idealDouble storedOne 7 1000 5000 1400 4000
    (by decide) (by decide) (by decide) (by decide)
  refine ⟨⟨by decide, by decide, by decide, by decide, by decide, by decide, by decide⟩,
    ?_, ?_, ?_, ?_⟩
  · rw [h.2.2.2.1 (by decide) (by decide)]; decide
  · rw [(g.2.2.2.2.1 (by decide)).2]; decide
  · rw [h.2.2.2.2.2]
  · rw [g.2.2.2.2.2]

set_option maxRecDepth 100000 in
/-- Claim C5 on a frame of 40 lines followed by one of 25 lines: `maxLinesUsed` is 40, the
next repaint begins with the cursor-up by 40, the first repaint has no cursor-up; and on two
ticks of `run`, whose frames have 13 and 12 lines: `maxLinesUsed` is 13. -/
theorem maxLinesUsed_is_high_water_mark_witness :
    (paintLoop 0 [frame40, frame25]).2 = 40 ∧
    highWater ([frame40, frame25].map countLines) = 40 ∧
    0 < highWater ([frame40, frame25].map countLines) ∧
    (paint (highWater ([frame40, frame25].map countLines)) frame25).up = "\x1b[40A" ∧
    (paint 0 frame40).up = "" ∧
    (framesFrom idealDouble RunState.initial
      [[resolvedDevice, unresolvedDevice], [resolvedDevice]]).map countLines = [13, 12] ∧
    (run idealDouble [[resolvedDevice, unresolvedDevice], [resolvedDevice]]).maxLinesUsed =
      13 := by
  have h := maxLinesUsed_is_high_water_mark idealDouble
    [[resolvedDevice, unresolvedDevice], [resolvedDevice]] [frame40, frame25] frame25
  have hw : highWater ([frame40, frame25].map countLines) = 40 := by decide
  have hf : (framesFrom idealDouble RunState.initial
      [[resolvedDevice, unresolvedDevice], [resolvedDevice]]).map countLines = [13, 12] := by
    decide
  refine ⟨by rw [h.2.1, hw], hw, by rw [hw]; decide, ?_,
    (maxLinesUsed_is_high_water_mark idealDouble [] [] frame40).2.2.2.2.2.2.2, hf, ?_⟩
  · rw [h.2.2.2.1, h.2.2.2.2.2.1 (by rw [hw]; decide), hw]
    decide
  · rw [h.1, hf]
    decide

set_option maxRecDepth 100000 in
/-- A frame of 25 lines painted when `maxLinesUsed = 40`: 15 line breaks of padding,
`maxLinesUsed` stays 40, 40 line breaks follow the erase sequence and the next cursor-up is
by 40. -/
theorem paint_line_breaks_example :
    (countLines frame25 < 40 ∧ (paint 0 frame40).maxLinesUsed = 40) ∧
    (paint 40 frame25).pad = padding 15 ∧
    countLines (paint 40 frame25).pad = 15 ∧
    (paint 40 frame25).maxLinesUsed = 40 ∧
    countLines ((paint 40 frame25).frame ++ (paint 40 frame25).pad) = 40 ∧
    (paint (paint 40 frame25).maxLinesUsed frame25).up = "\x1b[40A" ∧
    ((paintLoop 0 [frame40, frame25]).1.map fun p => (countLines p.pad, p.maxLinesUsed)) =
      [(0, 40), (15, 40)] := by
  have h := paint_line_breaks 40 frame25 frame25 [frame40, frame25]
  have hlt : countLines frame25 < 40 := by decide
  have h25 : countLines frame25 = 25 := by decide
  have hcase := h.2.2.2.1 hlt
  rw [h25] at hcase
  refine ⟨⟨hlt, by decide⟩, hcase.1, hcase.2.1, hcase.2.2, ?_, ?_, by decide⟩
  · rw [h.1, hcase.2.2]
  · rw [h.2.2.2.2.2.2.1, hcase.2.2]; decide

/-- Claim C6 on a device for which the second `zesDriverGet` call fails, over two ticks: the
resolution prints its diagnostic line with `printf`, straight to the terminal, while the
frame is being built. After the first tick `maxLinesUsed` is 1 and one line break follows
the erase sequence, but the diagnostic of the second tick is written before the next
cursor-up: two line breaks lie between the first erase sequence and the cursor-up, which
moves up by 1. The cursor is then two rows below the top of the frame, not
`maxLinesUsed = 1`. -/
theorem diagnostic_shifts_cursor :
    getSysmanDeviceHandleFromCoreDeviceHandle driverFetchFailure.sysman =
      ("Error:  zesDriverGet failed, result = 1879048193\n", .returned none) ∧
    (run idealDouble [[driverFetchFailure]]).maxLinesUsed = 1 ∧
    (run idealDouble [[driverFetchFailure]]).stdout =
      "Error:  zesDriverGet failed, result = 1879048193\n" ++
        ("\x1b[J" ++ "Device: GPU 3\n") ∧
    (run idealDouble [[driverFetchFailure], [driverFetchFailure]]).stdout =
      "Error:  zesDriverGet failed, result = 1879048193\n" ++
        ("\x1b[J" ++
          ("Device: GPU 3\n" ++ "Error:  zesDriverGet failed, result = 1879048193\n")) ++
        (cursorUp 1 ++ "\x1b[J" ++ "Device: GPU 3\n") ∧
    cursorUp 1 = "\x1b[1A" ∧
    countLines ("Device: GPU 3\n" ++ "Error:  zesDriverGet failed, result = 1879048193\n") =
      2 ∧
    countLines ("Device: GPU 3\n" ++ "Error:  zesDriverGet failed, result = 1879048193\n") ≠
      (run idealDouble [[driverFetchFailure]]).maxLinesUsed := by
  decide

/-- Claim C7 as stated fails: a device whose resolution returns a null handle still puts its
header line into the frame text, and a device for which no Sysman driver is reported makes the
process exit with status -1, so that the device after it is not visited and no frame is
painted. -/
theorem unresolved_device_counterexample :
    (tickStart.exited = none ∧
      (getSysmanDeviceHandleFromCoreDeviceHandle unresolvedDevice.sysman).2 = .returned none ∧
      (printDeviceInfo idealDouble [unresolvedDevice] tickStart).out.text = "Device: GPU 0\n" ∧
      (printDeviceInfo idealDouble [unresolvedDevice] tickStart).out.text ≠
        (printDeviceInfo idealDouble [] tickStart).out.text) ∧
    ((getSysmanDeviceHandleFromCoreDeviceHandle driverlessDevice.sysman).2 = .exited (-1) ∧
      (printDeviceInfo idealDouble [driverlessDevice, resolvedDevice] tickStart).exited =
        some (-1) ∧
      (printDeviceInfo idealDouble [driverlessDevice, resolvedDevice] tickStart).out.text =
        "Device: GPU 2\n" ∧
      (run idealDouble [[driverlessDevice, resolvedDevice]]).stdout =
        "Error could not retrieve driver\n") := by
  decide

set_option maxRecDepth 100000 in
/-- Claim C7, as amended, on three devices: an unresolved device in the middle (no driver
knows it, or the second `zesDriverGet` call fails) contributes its header line only and the
device after it is printed in full; with a device without Sysman driver in the middle the
process exits with status -1. -/
theorem unresolved_device_emits_only_header_witness :
    ((printDeviceInfo idealDouble [resolvedDevice] tickStart).exited = none ∧
      (getSysmanDeviceHandleFromCoreDeviceHandle unresolvedDevice.sysman).2 = .returned none ∧
      (getSysmanDeviceHandleFromCoreDeviceHandle driverFetchFailure.sysman).2 =
        .returned none ∧
      (getSysmanDeviceHandleFromCoreDeviceHandle driverlessDevice.sysman).2 = .exited (-1)) ∧
    (printDeviceInfo idealDouble [resolvedDevice, unresolvedDevice, resolvedDevice]
      tickStart).out.text =
      (printDeviceInfo idealDouble [resolvedDevice] tickStart).out.text ++ "Device: GPU 0\n" ++
        "Device: GPU 1\nPower: 0.00 W\nMemory Module 0\n    Health: 0\n" ++
        "    Total Memory: 4096 MiB\n    Free Memory: 1024 MiB\n" ++
        "    Used Memory: 3072 MiB (75.00%)\nTemperature Sensors 1\n" ++
        "    Temperature Sensor 0: 45.50C\n\n" ++
        "PID: 4242 / Mem size: 2 MiB / Shared mem: 1 MiB \n    clinfo -l \n" ∧
    ((deviceStep idealDouble (printDeviceInfo idealDouble [resolvedDevice] tickStart)
        driverFetchFailure).out.text =
        (printDeviceInfo idealDouble [resolvedDevice] tickStart).out.text ++ "Device: " ++
          "GPU 3" ++ "\n" ∧
      (deviceStep idealDouble (printDeviceInfo idealDouble [resolvedDevice] tickStart)
        driverFetchFailure).exited = none) ∧
    (printDeviceInfo idealDouble [resolvedDevice, driverlessDevice, resolvedDevice]
      tickStart).exited = some (-1) := by
  have h := unresolved_device_emits_only_header idealDouble [resolvedDevice] [resolvedDevice]
    unresolvedDevice tickStart (by decide)
  have f := unresolved_device_emits_only_header idealDouble [resolvedDevice] [resolvedDevice]
    driverFetchFailure tickStart (by decide)
  have g := unresolved_device_emits_only_header idealDouble [resolvedDevice] [resolvedDevice]
    driverlessDevice tickStart (by decide)
  have hf := f.1 (by decide)
  refine ⟨⟨by decide, by decide, by decide, by decide⟩, ?_, ⟨hf.2.1, hf.2.2.2.1⟩,
    (g.2.2.2.1 (by decide)).1⟩
  have h5 := (h.1 (by decide)).2.2.2.2
  simp only [List.singleton_append] at h5
  rw [h5]
  decide

end ZeSmi
